import Mathlib

/-!
# Traceability Graph Builder — shallow embedding

Shallow embedding of the traceability pipeline implemented in
`components/brd/TraceabilityMatrix.tsx` (the `fetchTraceability` function and
the coverage figures computed in the render): the Source Registry
(`buildSources`, `buildSourceId`), the Attribution Resolver
(`matchRequirementSource`, `matchObjectiveSource`), the Link Builder
(`requirementLinks`, `objectiveLinks`, `taskLinks`) and the Coverage Analyzer
(`sourceCoverageRatio`, `taskCoverageRatio`).

Modelling conventions:
* JavaScript strings become `String`; optional / possibly-`undefined` fields
  become `Option String` (or `Option Bool`), with `none` for an absent field.
* JavaScript truthiness on strings (`undefined`, `null` and `""` are falsy) is
  `jsTruthy` / `jsOr` below.
* React icon components in `SOURCE_TYPE_CONFIG` are not data the pipeline
  computes with; the embedded config keeps the `color`, `bg` and `label`
  string fields.
* Raw sources that are bare strings (the `typeof s === 'string'` branch of the
  `content` field) are out of scope: raw sources are modelled as records; the
  `metadata` open bag is likewise omitted (no pipeline logic reads it).
* Ratios displayed as percentages are modelled as exact rationals, with the
  `requirements.length > 0 ? … : '0%'` guard of the progress bars.
-/

namespace Traceability

/-- JS truthiness of an optional string: an absent field and `""` are falsy. -/
def jsTruthy : Option String → Bool
  | none => false
  | some s => s != ""

/-- JS `a || b` where `a` is an optional string and `b` the fallback. -/
def jsOr (a : Option String) (b : String) : String :=
  match a with
  | none => b
  | some s => if s = "" then b else s

/-- One entry of the BRD's stored `raw_sources` array. -/
structure RawSource where
  type : Option String
  name : Option String
  content : Option String
  deriving Repr, DecidableEq

/-- One entry of `brd.business_objectives`. -/
structure RawObjective where
  id : String
  description : Option String
  source_doc : Option String
  deriving Repr, DecidableEq

/-- One entry of `brd.functional_requirements` / `brd.non_functional_requirements`. -/
structure RawRequirement where
  id : String
  title : Option String
  description : Option String
  source_doc : Option String
  source_quote : Option String
  citation_verified : Option Bool
  deriving Repr, DecidableEq

/-- A task row (`tasks` table: `id, title, requirement_id, status`). -/
structure Task where
  id : String
  title : String
  requirement_id : Option String
  status : String
  deriving Repr, DecidableEq

/-- The BRD record fields read by `fetchTraceability` (each `Array.isArray`
guard replaced by a list). -/
structure Brd where
  raw_sources : List RawSource
  business_objectives : List RawObjective
  functional_requirements : List RawRequirement
  non_functional_requirements : List RawRequirement
  deriving Repr, DecidableEq

/-- The non-icon fields of one `SOURCE_TYPE_CONFIG` entry. -/
structure SourceTypeStyle where
  color : String
  bg : String
  label : String
  deriving Repr, DecidableEq

/-- The `document` entry of `SOURCE_TYPE_CONFIG` (also the fallback of
`getSourceTypeConfig`). -/
def documentStyle : SourceTypeStyle :=
  { color := "text-blue-400", bg := "bg-blue-500/20", label := "Document" }

/-- `SOURCE_TYPE_CONFIG`: source type → style, as an association list. -/
def SOURCE_TYPE_CONFIG : List (String × SourceTypeStyle) :=
  [ ("gmail",      { color := "text-red-400",    bg := "bg-red-500/20",    label := "Gmail" }),
    ("email",      { color := "text-red-400",    bg := "bg-red-500/20",    label := "Email" }),
    ("slack",      { color := "text-purple-400", bg := "bg-purple-500/20", label := "Slack" }),
    ("fireflies",  { color := "text-orange-400", bg := "bg-orange-500/20", label := "Fireflies" }),
    ("transcript", { color := "text-orange-400", bg := "bg-orange-500/20", label := "Transcript" }),
    ("document",   documentStyle),
    ("text",       { color := "text-slate-400",  bg := "bg-slate-500/20",  label := "Text" }) ]

/-- `getSourceTypeConfig`: `SOURCE_TYPE_CONFIG[type?.toLowerCase()] ?? SOURCE_TYPE_CONFIG['document']`. -/
def getSourceTypeConfig (t : String) : SourceTypeStyle :=
  (SOURCE_TYPE_CONFIG.lookup t.toLower).getD documentStyle

/-- `buildSourceId(idx)`: the short unique source id `SRC-(idx+1)`. -/
def buildSourceId (idx : Nat) : String :=
  "SRC-" ++ toString (idx + 1)

/-- One registered data source, as built by `fetchTraceability`. -/
structure DataSource where
  id : String
  srcKey : String
  name : String
  type : String
  content : Option String
  deriving Repr, DecidableEq

/-- The Source Registry: `rawSources.map((s, idx) => ({...}))`. -/
def buildSources (rawSources : List RawSource) : List DataSource :=
  rawSources.mapIdx (fun idx s =>
    { id := buildSourceId idx
      srcKey := "source-" ++ toString idx
      name := jsOr s.name (jsOr s.type ("Source " ++ toString (idx + 1)))
      type := jsOr s.type "document"
      content := s.content })

/-- An objective node: `{ id, name: description?.substring(0,60) || id, source: source_doc }`. -/
structure Objective where
  id : String
  name : String
  source : Option String
  deriving Repr, DecidableEq

def buildObjectives (businessObjectives : List RawObjective) : List Objective :=
  businessObjectives.map (fun o =>
    { id := o.id
      name := jsOr (o.description.map (fun d => d.take 60)) o.id
      source := o.source_doc })

/-- A requirement node, from a functional or non-functional raw requirement. -/
structure Requirement where
  id : String
  name : String
  source : Option String
  sourceQuote : Option String
  citationVerified : Option Bool
  type : String
  deriving Repr, DecidableEq

def buildRequirement (rtype : String) (r : RawRequirement) : Requirement :=
  { id := r.id
    name := jsOr r.title (jsOr (r.description.map (fun d => d.take 50)) r.id)
    source := r.source_doc
    sourceQuote := r.source_quote
    citationVerified := r.citation_verified
    type := rtype }

/-- `requirements = [...funcReqs.map(...), ...nonFuncReqs.map(...)]`. -/
def buildRequirements (funcReqs nonFuncReqs : List RawRequirement) : List Requirement :=
  funcReqs.map (buildRequirement "functional") ++ nonFuncReqs.map (buildRequirement "non-functional")

/-- One endpoint of a traceability link (`{ id, type, name, excerpt? }`). -/
structure LinkNode where
  id : String
  type : String
  name : String
  excerpt : Option String
  deriving Repr, DecidableEq

/-- A `TraceabilityLink` (`{ source, target }`). -/
structure TraceLink where
  source : LinkNode
  target : LinkNode
  deriving Repr, DecidableEq

/-- The find-predicate used for requirements:
`s.type === req.source || s.id === req.source || s.name === req.source`. -/
def reqSourceMatch (s : DataSource) (req : Requirement) : Bool :=
  some s.type == req.source || some s.id == req.source || some s.name == req.source

/-- The find-predicate used for objectives:
`s.type === obj.source || s.name === obj.source` (no id strategy). -/
def objSourceMatch (s : DataSource) (obj : Objective) : Bool :=
  some s.type == obj.source || some s.name == obj.source

/-- `sources.find(s => s.type === req.source || s.id === req.source || s.name === req.source) ?? sources[0]`. -/
def matchRequirementSource (sources : List DataSource) (req : Requirement) : Option DataSource :=
  (sources.find? (fun s => reqSourceMatch s req)).orElse (fun _ => sources.head?)

/-- `sources.find(s => s.type === obj.source || s.name === obj.source) ?? sources[0]`. -/
def matchObjectiveSource (sources : List DataSource) (obj : Objective) : Option DataSource :=
  (sources.find? (fun s => objSourceMatch s obj)).orElse (fun _ => sources.head?)

/-- The `requirements.forEach` loop: one `DataSource → Requirement` link per
requirement with a matched (or fallback) source. -/
def requirementLinks (sources : List DataSource) (requirements : List Requirement) : List TraceLink :=
  requirements.filterMap (fun req =>
    (matchRequirementSource sources req).map (fun m =>
      { source := { id := m.id, type := "source", name := m.id ++ " — " ++ m.name, excerpt := req.sourceQuote }
        target := { id := req.id, type := "requirement", name := req.name, excerpt := none } }))

/-- The `objectives.forEach` loop: one `DataSource → Objective` link per
objective with a matched (or fallback) source. -/
def objectiveLinks (sources : List DataSource) (objectives : List Objective) : List TraceLink :=
  objectives.filterMap (fun obj =>
    (matchObjectiveSource sources obj).map (fun m =>
      { source := { id := m.id, type := "source", name := m.id ++ " — " ++ m.name, excerpt := none }
        target := { id := obj.id, type := "objective", name := obj.name, excerpt := none } }))

/-- The `tasks.forEach` loop: one `Requirement → Task` link per task whose
truthy `requirement_id` matches a known requirement. -/
def taskLinks (requirements : List Requirement) (tasks : List Task) : List TraceLink :=
  tasks.filterMap (fun task =>
    if jsTruthy task.requirement_id then
      (requirements.find? (fun r => some r.id == task.requirement_id)).map (fun req =>
        { source := { id := req.id, type := "requirement", name := req.name, excerpt := none }
          target := { id := task.id, type := "task", name := task.title, excerpt := none } })
    else none)

/-- The state set by `setTraceability` at the end of `fetchTraceability`. -/
structure TraceabilityData where
  sources : List DataSource
  objectives : List Objective
  requirements : List Requirement
  tasks : List Task
  links : List TraceLink
  deriving Repr, DecidableEq

/-- The pure core of `fetchTraceability` (after the two store reads). -/
def fetchTraceability (brd : Brd) (tasks : List Task) : TraceabilityData :=
  let sources := buildSources brd.raw_sources
  let objectives := buildObjectives brd.business_objectives
  let requirements := buildRequirements brd.functional_requirements brd.non_functional_requirements
  { sources := sources
    objectives := objectives
    requirements := requirements
    tasks := tasks
    links := requirementLinks sources requirements
              ++ objectiveLinks sources objectives
              ++ taskLinks requirements tasks }

/-- Numerator of "Requirements with Sources": `requirements.filter(r => r.source).length`. -/
def sourceCoverageCount (requirements : List Requirement) : Nat :=
  (requirements.filter (fun r => jsTruthy r.source)).length

/-- Numerator of "Requirements with Tasks":
`new Set(tasks.filter(t => t.requirement_id).map(t => t.requirement_id)).size`. -/
def taskCoverageCount (tasks : List Task) : Nat :=
  ((tasks.filter (fun t => jsTruthy t.requirement_id)).map (fun t => t.requirement_id.getD "")).dedup.length

/-- The requirements-with-sources ratio, with the `requirements.length > 0` guard. -/
def sourceCoverageRatio (requirements : List Requirement) : ℚ :=
  if 0 < requirements.length then (sourceCoverageCount requirements : ℚ) / requirements.length else 0

/-- The requirements-with-tasks ratio, with the `requirements.length > 0` guard. -/
def taskCoverageRatio (requirements : List Requirement) (tasks : List Task) : ℚ :=
  if 0 < requirements.length then (taskCoverageCount tasks : ℚ) / requirements.length else 0

/-- Following the specification text, not the code (for refinement comparison):
a requirement counts as task-covered when it has at least one outbound link to
a Task in the built link set. -/
def specHasTaskLink (links : List TraceLink) (r : Requirement) : Bool :=
  links.any (fun l => l.source.type == "requirement" && l.source.id == r.id && l.target.type == "task")

/-- Following the specification text (for refinement comparison): number of
distinct requirements with at least one outbound link to a Task. -/
def specTaskCoverageCount (t : TraceabilityData) : Nat :=
  (t.requirements.filter (fun r => specHasTaskLink t.links r)).length

/-- Following the specification text (for refinement comparison): the
task-coverage ratio computed from the link set, 0 when there are no requirements. -/
def specTaskCoverageRatio (t : TraceabilityData) : ℚ :=
  if 0 < t.requirements.length then (specTaskCoverageCount t : ℚ) / t.requirements.length else 0

/-- A link endpoint references a node that exists in the traceability snapshot
(one of the emitted sources, objectives, requirements or tasks, of its kind). -/
def nodeInSnapshot (t : TraceabilityData) (n : LinkNode) : Prop :=
  (n.type = "source" ∧ ∃ s ∈ t.sources, s.id = n.id)
  ∨ (n.type = "objective" ∧ ∃ o ∈ t.objectives, o.id = n.id)
  ∨ (n.type = "requirement" ∧ ∃ r ∈ t.requirements, r.id = n.id)
  ∨ (n.type = "task" ∧ ∃ x ∈ t.tasks, x.id = n.id)

/-! ### Concrete test fixtures -/

/-- A raw source with a given `type` and `name` field and no content. -/
def fxRawSource (t n : Option String) : RawSource :=
  { type := t, name := n, content := none }

/-- A raw requirement with a given id and `source_doc` field. -/
def fxRawReq (i : String) (src : Option String) : RawRequirement :=
  { id := i, title := some ("Req " ++ i), description := none, source_doc := src
    source_quote := none, citation_verified := none }

/-- A raw objective with a given id and `source_doc` field. -/
def fxRawObj (i : String) (src : Option String) : RawObjective :=
  { id := i, description := some ("Obj " ++ i), source_doc := src }

/-- A task with a given id and `requirement_id`. -/
def fxTask (i : String) (rid : Option String) : Task :=
  { id := i, title := "Task " ++ i, requirement_id := rid, status := "todo" }

/-- A BRD whose first source matches `"transcript"` by display name only while
its second source matches by origin type; one requirement sourced `"transcript"`. -/
def fxBrdNameBeforeType : Brd :=
  { raw_sources := [fxRawSource (some "email") (some "transcript"), fxRawSource (some "transcript") none]
    business_objectives := []
    functional_requirements := [fxRawReq "FR-1" (some "transcript")]
    non_functional_requirements := [] }

/-- A BRD with two registered sources and one objective whose `source` field is
the identifier `"SRC-2"` of the second source. -/
def fxBrdObjIdRef : Brd :=
  { raw_sources := [fxRawSource (some "slack") none, fxRawSource (some "email") none]
    business_objectives := [fxRawObj "O-1" (some "SRC-2")]
    functional_requirements := []
    non_functional_requirements := [] }

/-- Scenario C input: empty `rawSources`, two requirements (each carrying a
`source` field). -/
def fxBrdEmptySources : Brd :=
  { raw_sources := []
    business_objectives := []
    functional_requirements := [fxRawReq "FR-1" (some "email"), fxRawReq "FR-2" (some "email")]
    non_functional_requirements := [] }

/-- A BRD with no sources and one requirement `FR-1` without a `source` field. -/
def fxBrdOneReq : Brd :=
  { raw_sources := []
    business_objectives := []
    functional_requirements := [fxRawReq "FR-1" none]
    non_functional_requirements := [] }

/-- A BRD with one `email` source, one objective and one requirement both
sourced `"email"` (used for the link-ordering counterexample). -/
def fxBrdLinkOrder : Brd :=
  { raw_sources := [fxRawSource (some "email") none]
    business_objectives := [fxRawObj "O-1" (some "email")]
    functional_requirements := [fxRawReq "FR-1" (some "email")]
    non_functional_requirements := [] }

/-- Scenario B input: one `slack` source, one requirement sourced
`"unknown-reference"`. -/
def fxBrdSlack : Brd :=
  { raw_sources := [fxRawSource (some "slack") none]
    business_objectives := []
    functional_requirements := [fxRawReq "FR-1" (some "unknown-reference")]
    non_functional_requirements := [] }

/-- An orphan task: its `requirement_id` `"FR-99"` matches no requirement. -/
def fxTaskOrphan : Task := fxTask "t1" (some "FR-99")

/-- Two tasks whose `requirement_id`s `"A"` and `"B"` match no requirement. -/
def fxTaskA : Task := fxTask "t1" (some "A")

def fxTaskB : Task := fxTask "t2" (some "B")

/-- Scenario D task: `{ id: "t1", requirementId: "FR-1" }`. -/
def fxTaskD : Task := fxTask "t1" (some "FR-1")

/-- A raw source whose `type` field `"banana"` is not a key of `SOURCE_TYPE_CONFIG`. -/
def fxRawBanana : RawSource := fxRawSource (some "banana") none

/-- The list of truthy `requirement_id` values among the tasks — the list whose
set of distinct values the code's "Requirements with Tasks" numerator counts. -/
def taskRequirementIds (tasks : List Task) : List String :=
  (tasks.filter (fun t => jsTruthy t.requirement_id)).map (fun t => t.requirement_id.getD "")

/-- The first link produced for `fxBrdLinkOrder`: `SRC-1 → FR-1`. -/
def fxLinkSrcReq : TraceLink :=
  { source := { id := "SRC-1", type := "source", name := "SRC-1 — email", excerpt := none }
    target := { id := "FR-1", type := "requirement", name := "Req FR-1", excerpt := none } }

/-! ### General list lemmas -/

/-- `List.find?` returns the element at the first index whose predicate holds. -/
theorem find?_eq_some_of_first {α : Type} (p : α → Bool) :
    ∀ (l : List α) (i : Nat) (h : i < l.length),
      p (l.get ⟨i, h⟩) = true →
      (∀ j (hj : j < i), p (l.get ⟨j, Nat.lt_trans hj h⟩) = false) →
      l.find? p = some (l.get ⟨i, h⟩)
  | a :: l, 0, _, hp, _ => by
      simp only [List.get] at hp
      simp [List.find?_cons, hp]
  | a :: l, i + 1, h, hp, hmin => by
      have ha : p a = false := hmin 0 (Nat.succ_pos i)
      have hlt : i < l.length := Nat.lt_of_succ_lt_succ h
      have hmin2 : ∀ j (hj : j < i), p (l.get ⟨j, Nat.lt_trans hj hlt⟩) = false := by
        intro j hj
        exact hmin (j + 1) (Nat.succ_lt_succ hj)
      have ih := find?_eq_some_of_first p l i hlt hp hmin2
      simp [List.find?_cons, ha, ih]

/-- Mapping over a `filterMap` whose function never drops an element. -/
theorem filterMap_map_of_forall_some {α β γ : Type} (f : α → Option β) (g : β → γ) (h : α → γ) :
    ∀ l : List α, (∀ a ∈ l, ∃ b, f a = some b ∧ g b = h a) →
      (l.filterMap f).map g = l.map h
  | [], _ => rfl
  | a :: l, H => by
      obtain ⟨b, hb, hgb⟩ := H a (List.mem_cons_self a l)
      have ih := filterMap_map_of_forall_some f g h l (fun x hx => H x (List.mem_cons_of_mem a hx))
      simp [List.filterMap_cons, hb, hgb, ih]

/-- The image of a `filterMap` is a sublist of the corresponding full map. -/
theorem filterMap_map_sublist {α β γ : Type} (f : α → Option β) (g : β → γ) (h : α → γ)
    (hfg : ∀ a b, f a = some b → g b = h a) :
    ∀ l : List α, ((l.filterMap f).map g).Sublist (l.map h)
  | [] => List.Sublist.refl _
  | a :: l => by
      cases hfa : f a with
      | none =>
          simp only [List.filterMap_cons, hfa, List.map_cons]
          exact (filterMap_map_sublist f g h hfg l).cons _
      | some b =>
          simp only [List.filterMap_cons, hfa, List.map_cons, hfg a b hfa]
          exact (filterMap_map_sublist f g h hfg l).cons₂ _

/-! ### Decimal rendering: injectivity of `Nat.repr`, hence of `buildSourceId` -/

/-- Numeric value of a decimal digit character. -/
def decDigitVal (c : Char) : Nat := c.toNat - 48

/-- Value of a big-endian list of decimal digit characters. -/
def digitsVal (l : List Char) : Nat := l.foldl (fun a c => 10 * a + decDigitVal c) 0

theorem decDigitVal_digitChar : ∀ d, d < 10 → decDigitVal (Nat.digitChar d) = d := by decide

theorem toDigitsCore_append (fuel : Nat) :
    ∀ (n : Nat) (acc : List Char),
      Nat.toDigitsCore 10 fuel n acc = Nat.toDigitsCore 10 fuel n [] ++ acc := by
  induction fuel with
  | zero => intro n acc; simp [Nat.toDigitsCore]
  | succ fuel ih =>
      intro n acc
      simp only [Nat.toDigitsCore]
      by_cases h : n / 10 = 0
      · simp [h]
      · simp only [h, if_false]
        rw [ih (n / 10) (Nat.digitChar (n % 10) :: acc), ih (n / 10) [Nat.digitChar (n % 10)]]
        simp

theorem digitsVal_append_digit (l : List Char) (c : Char) :
    digitsVal (l ++ [c]) = 10 * digitsVal l + decDigitVal c := by
  simp [digitsVal, List.foldl_append]

theorem digitsVal_toDigitsCore (fuel : Nat) :
    ∀ n : Nat, n < fuel → digitsVal (Nat.toDigitsCore 10 fuel n []) = n := by
  induction fuel with
  | zero => intro n h; exact absurd h (Nat.not_lt_zero n)
  | succ fuel ih =>
      intro n h
      simp only [Nat.toDigitsCore]
      by_cases h0 : n / 10 = 0
      · have hn : n < 10 := (Nat.div_eq_zero_iff (by norm_num)).1 h0
        have hm : n % 10 = n := Nat.mod_eq_of_lt hn
        simp [h0, digitsVal, hm, decDigitVal_digitChar n hn]
      · have hpos : 0 < n := by
          by_contra hc
          have : n = 0 := by omega
          simp [this] at h0
        have hdiv : n / 10 < fuel :=
          Nat.lt_of_lt_of_le (Nat.div_lt_self hpos (by norm_num)) (Nat.lt_succ_iff.mp h)
        rw [if_neg h0, toDigitsCore_append fuel (n / 10) [Nat.digitChar (n % 10)],
          digitsVal_append_digit, ih (n / 10) hdiv,
          decDigitVal_digitChar (n % 10) (Nat.mod_lt n (by norm_num)), Nat.div_add_mod]

theorem digitsVal_toDigits (n : Nat) : digitsVal (Nat.toDigits 10 n) = n :=
  digitsVal_toDigitsCore (n + 1) n (Nat.lt_succ_self n)

theorem natRepr_injective : Function.Injective Nat.repr := by
  intro a b h
  have hd : Nat.toDigits 10 a = Nat.toDigits 10 b := by
    have h2 := congrArg String.data h
    simpa [Nat.repr, List.asString] using h2
  have h3 := congrArg digitsVal hd
  simpa [digitsVal_toDigits] using h3

theorem buildSourceId_injective : Function.Injective buildSourceId := by
  intro a b h
  have hdata := congrArg String.data h
  simp only [buildSourceId, String.data_append] at hdata
  have h2 : (toString (a + 1) : String) = toString (b + 1) :=
    String.ext (List.append_cancel_left hdata)
  have h3 : Nat.repr (a + 1) = Nat.repr (b + 1) := h2
  have h4 := natRepr_injective h3
  omega

/-! ### Source Registry lemmas -/

theorem length_buildSources (l : List RawSource) : (buildSources l).length = l.length := by
  simp [buildSources]

theorem buildSources_get_id (l : List RawSource) (i : Nat) (h : i < (buildSources l).length) :
    ((buildSources l).get ⟨i, h⟩).id = buildSourceId i := by
  simp [buildSources, List.get_eq_getElem]

theorem buildSources_id_nodup (l : List RawSource) :
    ((buildSources l).map (fun s => s.id)).Nodup := by
  rw [List.nodup_iff_injective_get]
  intro i j hij
  have hi : (i : Nat) < (buildSources l).length := by
    have := i.2; simpa using this
  have hj : (j : Nat) < (buildSources l).length := by
    have := j.2; simpa using this
  rw [List.get_map, List.get_map] at hij
  rw [buildSources_get_id l i hi, buildSources_get_id l j hj] at hij
  exact Fin.ext (buildSourceId_injective hij)

theorem buildSources_append_ids (l : List RawSource) (x : RawSource) :
    (buildSources (l ++ [x])).map (fun s => s.id)
      = ((buildSources l).map (fun s => s.id)) ++ [buildSourceId l.length] := by
  simp [buildSources, List.mapIdx_append]

/-! ### Attribution Resolver lemmas -/

theorem matchRequirementSource_first (sources : List DataSource) (req : Requirement)
    (i : Nat) (h : i < sources.length)
    (hp : reqSourceMatch (sources.get ⟨i, h⟩) req = true)
    (hmin : ∀ j (hj : j < i), reqSourceMatch (sources.get ⟨j, Nat.lt_trans hj h⟩) req = false) :
    matchRequirementSource sources req = some (sources.get ⟨i, h⟩) := by
  have hf := find?_eq_some_of_first (fun s => reqSourceMatch s req) sources i h hp hmin
  simp [matchRequirementSource, hf]

theorem matchObjectiveSource_first (sources : List DataSource) (obj : Objective)
    (i : Nat) (h : i < sources.length)
    (hp : objSourceMatch (sources.get ⟨i, h⟩) obj = true)
    (hmin : ∀ j (hj : j < i), objSourceMatch (sources.get ⟨j, Nat.lt_trans hj h⟩) obj = false) :
    matchObjectiveSource sources obj = some (sources.get ⟨i, h⟩) := by
  have hf := find?_eq_some_of_first (fun s => objSourceMatch s obj) sources i h hp hmin
  simp [matchObjectiveSource, hf]

theorem matchRequirementSource_fallback (sources : List DataSource) (req : Requirement)
    (hnone : ∀ s ∈ sources, reqSourceMatch s req = false) :
    matchRequirementSource sources req = sources.head? := by
  have hf : sources.find? (fun s => reqSourceMatch s req) = none :=
    List.find?_eq_none.2 (by simpa using hnone)
  simp [matchRequirementSource, hf, Option.orElse]

theorem matchObjectiveSource_fallback (sources : List DataSource) (obj : Objective)
    (hnone : ∀ s ∈ sources, objSourceMatch s obj = false) :
    matchObjectiveSource sources obj = sources.head? := by
  have hf : sources.find? (fun s => objSourceMatch s obj) = none :=
    List.find?_eq_none.2 (by simpa using hnone)
  simp [matchObjectiveSource, hf, Option.orElse]

/-! ### Claim C6 -/

/-- C6: the Source Registry assigns the source at 0-based index `i` the
identifier `"SRC-" ++ toString (i+1)`; the identifiers of a registry are
pairwise distinct; the identifier of a position depends only on the position,
so re-running reproduces it; and appending a raw source to the end leaves all
previously assigned identifiers unchanged while the new source receives the
next sequential identifier. -/
theorem sourceRegistry_identifier_stability :
    (∀ (l : List RawSource) (i : Nat) (h : i < (buildSources l).length),
        ((buildSources l).get ⟨i, h⟩).id = "SRC-" ++ toString (i + 1))
  ∧ (∀ l : List RawSource, ((buildSources l).map (fun s => s.id)).Nodup)
  ∧ (∀ (l : List RawSource) (x : RawSource),
        (buildSources (l ++ [x])).map (fun s => s.id)
          = ((buildSources l).map (fun s => s.id)) ++ [buildSourceId l.length]) :=
  ⟨fun l i h => buildSources_get_id l i h, buildSources_id_nodup, buildSources_append_ids⟩

/-- Witness for C6 at a concrete registry of two raw sources. -/
theorem sourceRegistry_identifier_stability_witness :
    ((buildSources [fxRawBanana, fxRawBanana]).get ⟨1, by decide⟩).id = "SRC-" ++ toString (1 + 1) :=
  sourceRegistry_identifier_stability.1 [fxRawBanana, fxRawBanana] 1 (by decide)

/-! ### Claim C1 -/

/-- C1 counterexample: with raw sources `[(type "email", name "transcript"),
(type "transcript")]` and a requirement sourced `"transcript"`, the resolver
returns `SRC-1` — the earlier source matching only by display name — even
though `SRC-2` matches by origin type; and an objective sourced `"SRC-2"` in a
two-source registry is not matched by identifier, falling back to `SRC-1`. -/
theorem attribution_strategy_order_counterexample :
    ((matchRequirementSource (buildSources fxBrdNameBeforeType.raw_sources)
        (buildRequirement "functional" (fxRawReq "FR-1" (some "transcript")))).map (fun s => s.id)
      = some "SRC-1")
  ∧ ((buildSources fxBrdNameBeforeType.raw_sources).map (fun s => (s.id, s.type, s.name))
      = [("SRC-1", "email", "transcript"), ("SRC-2", "transcript", "transcript")])
  ∧ ((buildObjectives fxBrdObjIdRef.business_objectives).map
        (fun o => (matchObjectiveSource (buildSources fxBrdObjIdRef.raw_sources) o).map (fun s => s.id))
      = [some "SRC-1"])
  ∧ ((buildSources fxBrdObjIdRef.raw_sources).map (fun s => s.id) = ["SRC-1", "SRC-2"]) := by
  refine ⟨by decide, by decide, by decide, by decide⟩

/-- C1 (amended): for each extracted item the resolver scans the registry in
order and attributes the item to the first DataSource satisfying the
disjunction of the exact strategies — originType, identifier, displayName for
requirements; originType, displayName (identifier plays no role) for
objectives. The strategies are tried per source, not in separate ordered
passes over the registry. -/
theorem attribution_first_disjunctive_match :
    (∀ (sources : List DataSource) (req : Requirement) (i : Nat) (h : i < sources.length),
        reqSourceMatch (sources.get ⟨i, h⟩) req = true →
        (∀ j (hj : j < i), reqSourceMatch (sources.get ⟨j, Nat.lt_trans hj h⟩) req = false) →
        matchRequirementSource sources req = some (sources.get ⟨i, h⟩))
  ∧ (∀ (sources : List DataSource) (obj : Objective) (i : Nat) (h : i < sources.length),
        objSourceMatch (sources.get ⟨i, h⟩) obj = true →
        (∀ j (hj : j < i), objSourceMatch (sources.get ⟨j, Nat.lt_trans hj h⟩) obj = false) →
        matchObjectiveSource sources obj = some (sources.get ⟨i, h⟩))
  ∧ (∀ (sources : List DataSource) (obj : Objective),
        (∀ s ∈ sources, some s.type ≠ obj.source ∧ some s.name ≠ obj.source) →
        matchObjectiveSource sources obj = sources.head?) := by
  refine ⟨matchRequirementSource_first, matchObjectiveSource_first, ?_⟩
  intro sources obj hnone
  refine matchObjectiveSource_fallback sources obj ?_
  intro s hs
  obtain ⟨h1, h2⟩ := hnone s hs
  simp [objSourceMatch]
  exact ⟨fun hc => h1 (by rw [hc]), fun hc => h2 (by rw [hc])⟩

/-- Witness for C1 at the concrete two-source registry: the requirement sourced
`"transcript"` is resolved to the source at index 0. -/
theorem attribution_first_disjunctive_match_witness :
    matchRequirementSource (buildSources fxBrdNameBeforeType.raw_sources)
        (buildRequirement "functional" (fxRawReq "FR-1" (some "transcript")))
      = some ((buildSources fxBrdNameBeforeType.raw_sources).get ⟨0, by decide⟩) :=
  attribution_first_disjunctive_match.1 (buildSources fxBrdNameBeforeType.raw_sources)
    (buildRequirement "functional" (fxRawReq "FR-1" (some "transcript"))) 0 (by decide)
    (by decide) (fun j hj => absurd hj (Nat.not_lt_zero j))

/-! ### Claim C8 -/

/-- C8: when none of the three exact strategies (originType, identifier,
displayName) matches any DataSource, the item is attributed to the first
DataSource in registry order; with an empty registry the item is unattributed. -/
theorem attribution_fallback_first_source :
    (∀ (sources : List DataSource) (req : Requirement),
        (∀ s ∈ sources, some s.type ≠ req.source ∧ some s.id ≠ req.source ∧ some s.name ≠ req.source) →
        matchRequirementSource sources req = sources.head?)
  ∧ (∀ (sources : List DataSource) (obj : Objective),
        (∀ s ∈ sources, some s.type ≠ obj.source ∧ some s.id ≠ obj.source ∧ some s.name ≠ obj.source) →
        matchObjectiveSource sources obj = sources.head?)
  ∧ (∀ req : Requirement, matchRequirementSource [] req = none)
  ∧ (∀ obj : Objective, matchObjectiveSource [] obj = none) := by
  refine ⟨?_, ?_, ?_, ?_⟩
  · intro sources req hnone
    refine matchRequirementSource_fallback sources req ?_
    intro s hs
    obtain ⟨h1, h2, h3⟩ := hnone s hs
    simp [reqSourceMatch]
    exact ⟨⟨fun hc => h1 (by rw [hc]), fun hc => h2 (by rw [hc])⟩, fun hc => h3 (by rw [hc])⟩
  · intro sources obj hnone
    refine matchObjectiveSource_fallback sources obj ?_
    intro s hs
    obtain ⟨h1, _, h3⟩ := hnone s hs
    simp [objSourceMatch]
    exact ⟨fun hc => h1 (by rw [hc]), fun hc => h3 (by rw [hc])⟩
  · intro req; rfl
  · intro obj; rfl

/-- Witness for C8, Scenario B: one `slack` source and a requirement sourced
`"unknown-reference"` resolve to the head of the registry (`SRC-1`). -/
theorem attribution_fallback_first_source_witness :
    matchRequirementSource (buildSources fxBrdSlack.raw_sources)
        (buildRequirement "functional" (fxRawReq "FR-1" (some "unknown-reference")))
      = (buildSources fxBrdSlack.raw_sources).head?
  ∧ ((buildSources fxBrdSlack.raw_sources).head?).map (fun s => s.id) = some "SRC-1" :=
  ⟨attribution_fallback_first_source.1 (buildSources fxBrdSlack.raw_sources)
      (buildRequirement "functional" (fxRawReq "FR-1" (some "unknown-reference")))
      (by decide),
    by decide⟩

/-! ### Link Builder lemmas -/

theorem matchRequirementSource_mem {sources : List DataSource} {req : Requirement}
    {m : DataSource} (h : matchRequirementSource sources req = some m) : m ∈ sources := by
  rw [matchRequirementSource] at h
  cases hf : sources.find? (fun s => reqSourceMatch s req) with
  | some s =>
      rw [hf] at h
      simp only [Option.orElse] at h
      cases h
      exact List.mem_of_find?_eq_some hf
  | none =>
      rw [hf] at h
      simp only [Option.orElse] at h
      exact List.mem_of_mem_head? (Option.mem_def.2 h)

theorem matchObjectiveSource_mem {sources : List DataSource} {obj : Objective}
    {m : DataSource} (h : matchObjectiveSource sources obj = some m) : m ∈ sources := by
  rw [matchObjectiveSource] at h
  cases hf : sources.find? (fun s => objSourceMatch s obj) with
  | some s =>
      rw [hf] at h
      simp only [Option.orElse] at h
      cases h
      exact List.mem_of_find?_eq_some hf
  | none =>
      rw [hf] at h
      simp only [Option.orElse] at h
      exact List.mem_of_mem_head? (Option.mem_def.2 h)

theorem mem_requirementLinks {sources : List DataSource} {requirements : List Requirement}
    {l : TraceLink} (hl : l ∈ requirementLinks sources requirements) :
    ∃ req ∈ requirements, ∃ m, matchRequirementSource sources req = some m ∧
      l = { source := { id := m.id, type := "source", name := m.id ++ " — " ++ m.name, excerpt := req.sourceQuote }
            target := { id := req.id, type := "requirement", name := req.name, excerpt := none } } := by
  rw [requirementLinks, List.mem_filterMap] at hl
  obtain ⟨req, hreq, hmap⟩ := hl
  obtain ⟨m, hm, hml⟩ := Option.map_eq_some'.1 hmap
  exact ⟨req, hreq, m, hm, hml.symm⟩

theorem mem_objectiveLinks {sources : List DataSource} {objectives : List Objective}
    {l : TraceLink} (hl : l ∈ objectiveLinks sources objectives) :
    ∃ obj ∈ objectives, ∃ m, matchObjectiveSource sources obj = some m ∧
      l = { source := { id := m.id, type := "source", name := m.id ++ " — " ++ m.name, excerpt := none }
            target := { id := obj.id, type := "objective", name := obj.name, excerpt := none } } := by
  rw [objectiveLinks, List.mem_filterMap] at hl
  obtain ⟨obj, hobj, hmap⟩ := hl
  obtain ⟨m, hm, hml⟩ := Option.map_eq_some'.1 hmap
  exact ⟨obj, hobj, m, hm, hml.symm⟩

theorem mem_taskLinks {requirements : List Requirement} {tasks : List Task}
    {l : TraceLink} (hl : l ∈ taskLinks requirements tasks) :
    ∃ task ∈ tasks, jsTruthy task.requirement_id = true ∧
      ∃ req, requirements.find? (fun r => some r.id == task.requirement_id) = some req ∧
        l = { source := { id := req.id, type := "requirement", name := req.name, excerpt := none }
              target := { id := task.id, type := "task", name := task.title, excerpt := none } } := by
  rw [taskLinks, List.mem_filterMap] at hl
  obtain ⟨task, htask, hmap⟩ := hl
  by_cases ht : jsTruthy task.requirement_id = true
  · rw [if_pos ht] at hmap
    obtain ⟨req, hr, hrl⟩ := Option.map_eq_some'.1 hmap
    exact ⟨task, htask, ht, req, hr, hrl.symm⟩
  · rw [if_neg ht] at hmap
    cases hmap

theorem requirementLinks_source_type {sources : List DataSource} {requirements : List Requirement}
    {l : TraceLink} (hl : l ∈ requirementLinks sources requirements) :
    l.source.type = "source" ∧ l.target.type = "requirement" := by
  obtain ⟨req, _, m, _, hleq⟩ := mem_requirementLinks hl
  subst hleq; exact ⟨rfl, rfl⟩

theorem objectiveLinks_source_type {sources : List DataSource} {objectives : List Objective}
    {l : TraceLink} (hl : l ∈ objectiveLinks sources objectives) :
    l.source.type = "source" ∧ l.target.type = "objective" := by
  obtain ⟨obj, _, m, _, hleq⟩ := mem_objectiveLinks hl
  subst hleq; exact ⟨rfl, rfl⟩

theorem taskLinks_source_type {requirements : List Requirement} {tasks : List Task}
    {l : TraceLink} (hl : l ∈ taskLinks requirements tasks) :
    l.source.type = "requirement" ∧ l.target.type = "task" := by
  obtain ⟨task, _, _, req, _, hleq⟩ := mem_taskLinks hl
  subst hleq; exact ⟨rfl, rfl⟩

/-! ### Claim C9 -/

/-- C9 counterexample: a raw source whose `type` field is the unrecognized
string `"banana"` yields a DataSource whose `originType` is `"banana"`, not
the generic `"document"` category (only the display style falls back). -/
theorem origin_type_unrecognized_counterexample :
    ((buildSources [fxRawBanana]).map (fun s => s.type) = ["banana"])
  ∧ (SOURCE_TYPE_CONFIG.lookup "banana" = none)
  ∧ ("banana" ≠ "document") := by
  refine ⟨by decide, by decide, by decide⟩

/-- C9 (amended): the Source Registry keeps the entry's `type` field as the
`originType` whenever it is present and non-empty — recognized or not — and
defaults to `"document"` only when the field is absent or empty; an empty
raw-source list yields an empty registry; unrecognized types fall back to the
generic document category only in the display configuration
(`getSourceTypeConfig`). -/
theorem origin_type_assignment :
    (buildSources [] = [])
  ∧ (∀ (l : List RawSource) (i : Nat) (s : RawSource), l[i]? = some s →
        ((s.type = none ∨ s.type = some "") →
          ((buildSources l)[i]?).map (fun d => d.type) = some "document")
      ∧ (∀ v, v ≠ "" → s.type = some v →
          ((buildSources l)[i]?).map (fun d => d.type) = some v))
  ∧ (∀ t : String, SOURCE_TYPE_CONFIG.lookup t.toLower = none →
        getSourceTypeConfig t = documentStyle) := by
  refine ⟨rfl, ?_, ?_⟩
  · intro l i s hs
    constructor
    · intro habs
      rcases habs with h0 | h0 <;>
        simp [buildSources, List.getElem?_mapIdx, hs, jsOr, h0]
    · intro v hv h0
      simp [buildSources, List.getElem?_mapIdx, hs, jsOr, h0, hv]
  · intro t ht
    rw [getSourceTypeConfig, ht]
    rfl

/-- Witness for C9 at concrete inputs: a source with an absent `type` field
gets `originType` `"document"`, and one typed `"banana"` keeps `"banana"`. -/
theorem origin_type_assignment_witness :
    (((buildSources [fxRawSource none none])[0]?).map (fun d => d.type) = some "document")
  ∧ (((buildSources [fxRawBanana])[0]?).map (fun d => d.type) = some "banana") :=
  ⟨((origin_type_assignment.2.1 [fxRawSource none none] 0 (fxRawSource none none) rfl).1
      (Or.inl rfl)),
    ((origin_type_assignment.2.1 [fxRawBanana] 0 fxRawBanana rfl).2 "banana" (by decide) rfl)⟩

/-! ### Claim C4 -/

/-- C4 (code bug): with one requirement `FR-1` and two tasks whose
`requirement_id`s `"A"` and `"B"` match no requirement, the displayed
task-coverage ratio is `2`, outside `[0, 1]`: the numerator counts distinct
`requirement_id` values whether or not they match a requirement. -/
theorem task_coverage_ratio_exceeds_one :
    taskCoverageRatio (fetchTraceability fxBrdOneReq [fxTaskA, fxTaskB]).requirements
      [fxTaskA, fxTaskB] = 2 := by
  have h1 : taskCoverageCount [fxTaskA, fxTaskB] = 2 := by decide
  have h2 : (fetchTraceability fxBrdOneReq [fxTaskA, fxTaskB]).requirements.length = 1 := by decide
  rw [taskCoverageRatio, h1, h2]
  norm_num

/-! ### Claim C5 -/

/-- C5 counterexample: with one objective and one requirement both attributed,
the link list begins with the source→requirement link and the source→objective
link comes second — objective links are not emitted first. -/
theorem link_order_counterexample :
    ((fetchTraceability fxBrdLinkOrder []).links.map (fun l => (l.target.type, l.target.id)))
      = [("requirement", "FR-1"), ("objective", "O-1")] := by
  decide

/-- C5 (amended): links are emitted in a stable order — all source→requirement
links first (in requirement list order), then all source→objective links (in
objective list order), then all requirement→task links (in task list order). -/
theorem link_order_grouped (brd : Brd) (tasks : List Task) :
    ∃ rl ol tl : List TraceLink,
      (fetchTraceability brd tasks).links = rl ++ ol ++ tl
      ∧ (∀ l ∈ rl, l.source.type = "source" ∧ l.target.type = "requirement")
      ∧ (∀ l ∈ ol, l.source.type = "source" ∧ l.target.type = "objective")
      ∧ (∀ l ∈ tl, l.source.type = "requirement" ∧ l.target.type = "task")
      ∧ (rl.map (fun l => l.target.id)).Sublist
          ((fetchTraceability brd tasks).requirements.map (fun r => r.id))
      ∧ (ol.map (fun l => l.target.id)).Sublist
          ((fetchTraceability brd tasks).objectives.map (fun o => o.id))
      ∧ (tl.map (fun l => l.target.id)).Sublist (tasks.map (fun t => t.id)) := by
  refine ⟨requirementLinks (buildSources brd.raw_sources)
      (buildRequirements brd.functional_requirements brd.non_functional_requirements),
    objectiveLinks (buildSources brd.raw_sources) (buildObjectives brd.business_objectives),
    taskLinks (buildRequirements brd.functional_requirements brd.non_functional_requirements) tasks,
    rfl, ?_, ?_, ?_, ?_, ?_, ?_⟩
  · intro l hl; exact requirementLinks_source_type hl
  · intro l hl; exact objectiveLinks_source_type hl
  · intro l hl; exact taskLinks_source_type hl
  · refine filterMap_map_sublist _ _ _ ?_ _
    intro req b hb
    obtain ⟨m, _, hml⟩ := Option.map_eq_some'.1 hb
    rw [← hml]
  · refine filterMap_map_sublist _ _ _ ?_ _
    intro obj b hb
    obtain ⟨m, _, hml⟩ := Option.map_eq_some'.1 hb
    rw [← hml]
  · refine filterMap_map_sublist _ _ _ ?_ _
    intro task b hb
    by_cases ht : jsTruthy task.requirement_id = true
    · rw [if_pos ht] at hb
      obtain ⟨req, _, hml⟩ := Option.map_eq_some'.1 hb
      rw [← hml]
    · rw [if_neg ht] at hb
      cases hb

/-! ### Projections of `fetchTraceability` -/

theorem fetchTraceability_links (brd : Brd) (tasks : List Task) :
    (fetchTraceability brd tasks).links =
      requirementLinks (buildSources brd.raw_sources)
          (buildRequirements brd.functional_requirements brd.non_functional_requirements)
        ++ objectiveLinks (buildSources brd.raw_sources) (buildObjectives brd.business_objectives)
        ++ taskLinks (buildRequirements brd.functional_requirements brd.non_functional_requirements)
            tasks := rfl

theorem fetchTraceability_sources (brd : Brd) (tasks : List Task) :
    (fetchTraceability brd tasks).sources = buildSources brd.raw_sources := rfl

theorem fetchTraceability_requirements (brd : Brd) (tasks : List Task) :
    (fetchTraceability brd tasks).requirements =
      buildRequirements brd.functional_requirements brd.non_functional_requirements := rfl

theorem fetchTraceability_objectives (brd : Brd) (tasks : List Task) :
    (fetchTraceability brd tasks).objectives = buildObjectives brd.business_objectives := rfl

theorem fetchTraceability_tasks (brd : Brd) (tasks : List Task) :
    (fetchTraceability brd tasks).tasks = tasks := rfl

theorem requirementLinks_nil_sources (requirements : List Requirement) :
    requirementLinks [] requirements = [] := by
  rw [requirementLinks, List.filterMap_eq_nil]
  intro req _
  rfl

theorem objectiveLinks_nil_sources (objectives : List Objective) :
    objectiveLinks [] objectives = [] := by
  rw [objectiveLinks, List.filterMap_eq_nil]
  intro obj _
  rfl

/-! ### Claim C7 -/

/-- C7: every link emitted by the pipeline has both endpoints referencing
nodes that exist in the output node set (sources, objectives, requirements,
tasks); and a task whose `requirement_id` matches no requirement produces no
link at all. -/
theorem no_dangling_links :
    (∀ (brd : Brd) (tasks : List Task), ∀ l ∈ (fetchTraceability brd tasks).links,
        nodeInSnapshot (fetchTraceability brd tasks) l.source ∧
        nodeInSnapshot (fetchTraceability brd tasks) l.target)
  ∧ (∀ (requirements : List Requirement) (task : Task),
        (∀ r ∈ requirements, some r.id ≠ task.requirement_id) →
        taskLinks requirements [task] = []) := by
  constructor
  · intro brd tasks l hl
    rw [fetchTraceability_links] at hl
    rcases List.mem_append.1 hl with h1 | hC
    · rcases List.mem_append.1 h1 with hA | hB
      · obtain ⟨req, hreq, m, hm, hleq⟩ := mem_requirementLinks hA
        subst hleq
        constructor
        · exact Or.inl ⟨rfl, m, matchRequirementSource_mem hm, rfl⟩
        · exact Or.inr (Or.inr (Or.inl ⟨rfl, req, hreq, rfl⟩))
      · obtain ⟨obj, hobj, m, hm, hleq⟩ := mem_objectiveLinks hB
        subst hleq
        constructor
        · exact Or.inl ⟨rfl, m, matchObjectiveSource_mem hm, rfl⟩
        · exact Or.inr (Or.inl ⟨rfl, obj, hobj, rfl⟩)
    · obtain ⟨task, htask, ht, req, hfind, hleq⟩ := mem_taskLinks hC
      subst hleq
      constructor
      · exact Or.inr (Or.inr (Or.inl ⟨rfl, req, List.mem_of_find?_eq_some hfind, rfl⟩))
      · exact Or.inr (Or.inr (Or.inr ⟨rfl, task, htask, rfl⟩))
  · intro requirements task hno
    rw [taskLinks, List.filterMap_eq_nil]
    intro a ha
    have haeq : a = task := List.mem_singleton.1 ha
    subst haeq
    by_cases ht : jsTruthy a.requirement_id = true
    · rw [if_pos ht]
      have hfind : requirements.find? (fun r => some r.id == a.requirement_id) = none := by
        rw [List.find?_eq_none]
        intro r hr
        simp only [beq_iff_eq]
        exact hno r hr
      rw [hfind]
      rfl
    · rw [if_neg ht]

/-- Witness for C7: the first link of a concrete pipeline run has both
endpoints in the snapshot, and a concrete orphan task produces no link. -/
theorem no_dangling_links_witness :
    (nodeInSnapshot (fetchTraceability fxBrdLinkOrder []) fxLinkSrcReq.source ∧
      nodeInSnapshot (fetchTraceability fxBrdLinkOrder []) fxLinkSrcReq.target)
  ∧ taskLinks (fetchTraceability fxBrdOneReq []).requirements [fxTaskOrphan] = [] :=
  ⟨no_dangling_links.1 fxBrdLinkOrder [] fxLinkSrcReq (by decide),
    no_dangling_links.2 (fetchTraceability fxBrdOneReq []).requirements fxTaskOrphan (by decide)⟩

/-! ### Claim C2 -/

/-- C2 counterexample: with an empty `rawSources` list and two requirements
(each carrying a `source` field), zero links are emitted yet the displayed
source-coverage ratio is `1`, not `0`: the ratio counts `source` fields, not
inbound links. -/
theorem source_coverage_counterexample :
    ((fetchTraceability fxBrdEmptySources []).links = [])
  ∧ sourceCoverageRatio (fetchTraceability fxBrdEmptySources []).requirements = 1 := by
  constructor
  · decide
  · have h1 : sourceCoverageCount (fetchTraceability fxBrdEmptySources []).requirements = 2 := by
      decide
    have h2 : (fetchTraceability fxBrdEmptySources []).requirements.length = 2 := by decide
    rw [sourceCoverageRatio, h1, h2]
    norm_num

/-- C2 (amended): the source-coverage ratio equals (requirements whose `source`
field is present and non-empty) / (total requirements), 0 when there are no
requirements; with an empty `rawSources` list no source link is emitted and no
error is thrown, and the ratio is 0 exactly when no requirement carries a
truthy `source` field. -/
theorem source_coverage_field_based (brd : Brd) (tasks : List Task)
    (h : brd.raw_sources = []) :
    ((fetchTraceability brd tasks).links.filter (fun l => l.source.type == "source") = [])
  ∧ (sourceCoverageRatio (fetchTraceability brd tasks).requirements = 0 ↔
      ∀ r ∈ (fetchTraceability brd tasks).requirements, jsTruthy r.source = false) := by
  constructor
  · rw [fetchTraceability_links, h]
    have hb : buildSources ([] : List RawSource) = [] := rfl
    rw [hb, requirementLinks_nil_sources, objectiveLinks_nil_sources]
    simp only [List.nil_append]
    rw [List.filter_eq_nil_iff]
    intro l hl
    have hty := (taskLinks_source_type hl).1
    simp [hty]
  · rw [fetchTraceability_requirements]
    set reqs := buildRequirements brd.functional_requirements brd.non_functional_requirements
      with hreqs
    by_cases hlen : 0 < reqs.length
    · rw [sourceCoverageRatio, if_pos hlen]
      have hlq : ((reqs.length : ℚ)) ≠ 0 := ne_of_gt (by exact_mod_cast hlen)
      constructor
      · intro h0
        rcases div_eq_zero_iff.1 h0 with hc | hc
        · have hc2 : sourceCoverageCount reqs = 0 := by exact_mod_cast hc
          rw [sourceCoverageCount] at hc2
          have hnil := List.length_eq_zero.1 hc2
          intro r hr
          have hmem := List.filter_eq_nil_iff.1 hnil r hr
          simpa using hmem
        · exact absurd hc hlq
      · intro hall
        have hc2 : sourceCoverageCount reqs = 0 := by
          rw [sourceCoverageCount, List.length_eq_zero, List.filter_eq_nil_iff]
          intro r hr
          simp [hall r hr]
        rw [hc2]
        simp
    · have hnil : reqs = [] := List.eq_nil_of_length_eq_zero (by omega)
      rw [sourceCoverageRatio, if_neg hlen, hnil]
      simp

/-- Witness for C2 at Scenario C's input (empty sources, two requirements). -/
theorem source_coverage_field_based_witness :
    ((fetchTraceability fxBrdEmptySources []).links.filter (fun l => l.source.type == "source") = [])
  ∧ (sourceCoverageRatio (fetchTraceability fxBrdEmptySources []).requirements = 0 ↔
      ∀ r ∈ (fetchTraceability fxBrdEmptySources []).requirements, jsTruthy r.source = false) :=
  source_coverage_field_based fxBrdEmptySources [] rfl

/-! ### Claim C10 -/

theorem matchRequirementSource_isSome (sources : List DataSource) (req : Requirement)
    (h : sources ≠ []) : ∃ m, matchRequirementSource sources req = some m := by
  cases hf : sources.find? (fun s => reqSourceMatch s req) with
  | some s => exact ⟨s, by rw [matchRequirementSource, hf]; rfl⟩
  | none =>
      obtain ⟨m, hm⟩ := Option.isSome_iff_exists.1 (List.head?_isSome.2 h)
      exact ⟨m, by rw [matchRequirementSource, hf]; exact hm⟩

theorem matchObjectiveSource_isSome (sources : List DataSource) (obj : Objective)
    (h : sources ≠ []) : ∃ m, matchObjectiveSource sources obj = some m := by
  cases hf : sources.find? (fun s => objSourceMatch s obj) with
  | some s => exact ⟨s, by rw [matchObjectiveSource, hf]; rfl⟩
  | none =>
      obtain ⟨m, hm⟩ := Option.isSome_iff_exists.1 (List.head?_isSome.2 h)
      exact ⟨m, by rw [matchObjectiveSource, hf]; exact hm⟩

theorem requirementLinks_target_ids (sources : List DataSource) (requirements : List Requirement)
    (h : sources ≠ []) :
    (requirementLinks sources requirements).map (fun l => l.target.id)
      = requirements.map (fun r => r.id) := by
  rw [requirementLinks]
  refine filterMap_map_of_forall_some _ _ _ _ ?_
  intro req _
  obtain ⟨m, hm⟩ := matchRequirementSource_isSome sources req h
  rw [hm]
  exact ⟨_, rfl, rfl⟩

theorem objectiveLinks_target_ids (sources : List DataSource) (objectives : List Objective)
    (h : sources ≠ []) :
    (objectiveLinks sources objectives).map (fun l => l.target.id)
      = objectives.map (fun o => o.id) := by
  rw [objectiveLinks]
  refine filterMap_map_of_forall_some _ _ _ _ ?_
  intro obj _
  obtain ⟨m, hm⟩ := matchObjectiveSource_isSome sources obj h
  rw [hm]
  exact ⟨_, rfl, rfl⟩

/-- C10: with a non-empty `rawSources` list, the Link Builder emits exactly one
source→requirement link per requirement (in requirement list order) and exactly
one source→objective link per objective (in objective list order) — the index-0
fallback applies even when an item's `source` field is absent — so the number
of links emitted from a source equals the number of requirements plus the
number of objectives. -/
theorem full_attribution_nonempty_sources (brd : Brd) (tasks : List Task)
    (h : brd.raw_sources ≠ []) :
    ((requirementLinks (buildSources brd.raw_sources)
        (buildRequirements brd.functional_requirements brd.non_functional_requirements)).map
          (fun l => l.target.id)
      = (buildRequirements brd.functional_requirements brd.non_functional_requirements).map
          (fun r => r.id))
  ∧ ((objectiveLinks (buildSources brd.raw_sources) (buildObjectives brd.business_objectives)).map
        (fun l => l.target.id)
      = (buildObjectives brd.business_objectives).map (fun o => o.id))
  ∧ (((fetchTraceability brd tasks).links.filter (fun l => l.source.type == "source")).length
      = (fetchTraceability brd tasks).requirements.length
        + (fetchTraceability brd tasks).objectives.length) := by
  have hs : buildSources brd.raw_sources ≠ [] := by
    intro hc
    apply h
    have hlen := congrArg List.length hc
    rw [length_buildSources] at hlen
    exact List.eq_nil_of_length_eq_zero hlen
  have hr := requirementLinks_target_ids (buildSources brd.raw_sources)
    (buildRequirements brd.functional_requirements brd.non_functional_requirements) hs
  have ho := objectiveLinks_target_ids (buildSources brd.raw_sources)
    (buildObjectives brd.business_objectives) hs
  refine ⟨hr, ho, ?_⟩
  have hfil : (fetchTraceability brd tasks).links.filter (fun l => l.source.type == "source")
      = requirementLinks (buildSources brd.raw_sources)
          (buildRequirements brd.functional_requirements brd.non_functional_requirements)
        ++ objectiveLinks (buildSources brd.raw_sources) (buildObjectives brd.business_objectives) := by
    rw [fetchTraceability_links, List.filter_append, List.filter_append]
    rw [List.filter_eq_self.2 (fun l hl => by
          rw [(requirementLinks_source_type hl).1]; rfl),
        List.filter_eq_self.2 (fun l hl => by
          rw [(objectiveLinks_source_type hl).1]; rfl),
        List.filter_eq_nil_iff.2 (fun l hl => by
          rw [(taskLinks_source_type hl).1]; decide),
        List.append_nil]
  rw [hfil, List.length_append, fetchTraceability_requirements, fetchTraceability_objectives]
  have hlen1 := congrArg List.length hr
  have hlen2 := congrArg List.length ho
  simp only [List.length_map] at hlen1 hlen2
  rw [hlen1, hlen2]

/-- Witness for C10 at a concrete single-source BRD. -/
theorem full_attribution_nonempty_sources_witness :
    (((fetchTraceability fxBrdSlack []).links.filter (fun l => l.source.type == "source")).length
      = (fetchTraceability fxBrdSlack []).requirements.length
        + (fetchTraceability fxBrdSlack []).objectives.length) :=
  (full_attribution_nonempty_sources fxBrdSlack [] (by decide)).2.2

/-! ### Claim C3 -/

/-- C3 counterexample: with one requirement `FR-1` and one orphan task whose
`requirement_id` is `"FR-99"`, no requirement→task link exists, yet the
displayed task-coverage ratio is `1`, not `0`. -/
theorem task_coverage_orphan_counterexample :
    taskCoverageRatio (fetchTraceability fxBrdOneReq [fxTaskOrphan]).requirements [fxTaskOrphan] = 1
  ∧ (fetchTraceability fxBrdOneReq [fxTaskOrphan]).links = [] := by
  constructor
  · have h1 : taskCoverageCount [fxTaskOrphan] = 1 := by decide
    have h2 : (fetchTraceability fxBrdOneReq [fxTaskOrphan]).requirements.length = 1 := by decide
    rw [taskCoverageRatio, h1, h2]
    norm_num
  · decide

theorem specHasTaskLink_links (brd : Brd) (tasks : List Task) (r : Requirement) :
    specHasTaskLink (fetchTraceability brd tasks).links r
      = specHasTaskLink
          (taskLinks (buildRequirements brd.functional_requirements brd.non_functional_requirements)
            tasks) r := by
  rw [fetchTraceability_links, specHasTaskLink, specHasTaskLink,
    List.any_append, List.any_append]
  have hA : (requirementLinks (buildSources brd.raw_sources)
      (buildRequirements brd.functional_requirements brd.non_functional_requirements)).any
        (fun l => l.source.type == "requirement" && l.source.id == r.id && l.target.type == "task")
      = false := by
    rw [List.any_eq_false]
    intro l hl
    rw [(requirementLinks_source_type hl).1]
    have hne : (("source" : String) == "requirement") = false := by decide
    simp [hne]
  have hB : (objectiveLinks (buildSources brd.raw_sources)
      (buildObjectives brd.business_objectives)).any
        (fun l => l.source.type == "requirement" && l.source.id == r.id && l.target.type == "task")
      = false := by
    rw [List.any_eq_false]
    intro l hl
    rw [(objectiveLinks_source_type hl).1]
    have hne : (("source" : String) == "requirement") = false := by decide
    simp [hne]
  rw [hA, hB]
  simp

theorem specHasTaskLink_taskLinks {requirements : List Requirement} {tasks : List Task}
    {r : Requirement} (hr : r ∈ requirements) :
    specHasTaskLink (taskLinks requirements tasks) r = true ↔
      ∃ task ∈ tasks, task.requirement_id = some r.id ∧ jsTruthy task.requirement_id = true := by
  constructor
  · intro h
    rw [specHasTaskLink, List.any_eq_true] at h
    obtain ⟨l, hl, hp⟩ := h
    obtain ⟨task, htask, ht, req, hfind, hleq⟩ := mem_taskLinks hl
    subst hleq
    simp only [Bool.and_eq_true, beq_iff_eq] at hp
    obtain ⟨⟨_, hid⟩, _⟩ := hp
    have hpred := List.find?_some hfind
    rw [beq_iff_eq] at hpred
    exact ⟨task, htask, by rw [← hpred, hid], ht⟩
  · rintro ⟨task, htask, hrid, ht⟩
    have hsome : (requirements.find? (fun x => some x.id == task.requirement_id)).isSome = true :=
      List.find?_isSome.2 ⟨r, hr, by rw [hrid]; exact beq_self_eq_true _⟩
    obtain ⟨req, hfind⟩ := Option.isSome_iff_exists.1 hsome
    have hpred := List.find?_some hfind
    rw [beq_iff_eq, hrid] at hpred
    have hreqid : req.id = r.id := by
      injection hpred
    rw [specHasTaskLink, List.any_eq_true]
    refine ⟨{ source := { id := req.id, type := "requirement", name := req.name, excerpt := none }
              target := { id := task.id, type := "task", name := task.title, excerpt := none } },
      ?_, ?_⟩
    · rw [taskLinks, List.mem_filterMap]
      refine ⟨task, htask, ?_⟩
      rw [if_pos ht, hfind]
      rfl
    · simp [hreqid]

theorem mem_taskRequirementIds {tasks : List Task} {x : String} :
    x ∈ taskRequirementIds tasks ↔
      ∃ task ∈ tasks, task.requirement_id = some x ∧ jsTruthy task.requirement_id = true := by
  rw [taskRequirementIds]
  constructor
  · intro hx
    obtain ⟨task, htf, hgd⟩ := List.mem_map.1 hx
    obtain ⟨htask, ht⟩ := List.mem_filter.1 htf
    cases hrid : task.requirement_id with
    | none => rw [hrid] at ht; exact absurd ht (by decide)
    | some v =>
        rw [hrid] at hgd
        simp only [Option.getD_some] at hgd
        exact ⟨task, htask, by rw [hrid, hgd], ht⟩
  · rintro ⟨task, htask, hrid, ht⟩
    refine List.mem_map.2 ⟨task, List.mem_filter.2 ⟨htask, ht⟩, ?_⟩
    rw [hrid]
    rfl

theorem length_filter_mem_eq_dedup_length (L S : List String)
    (hnd : L.Nodup) (hsub : ∀ x ∈ S, x ∈ L) :
    (L.filter (fun x => decide (x ∈ S))).length = S.dedup.length := by
  have h1 : (L.filter (fun x => decide (x ∈ S))).Nodup := hnd.filter _
  rw [← List.toFinset_card_of_nodup h1, ← List.card_toFinset]
  congr 1
  apply Finset.ext
  intro x
  simp only [List.mem_toFinset, List.mem_filter, decide_eq_true_iff]
  constructor
  · rintro ⟨_, hx⟩
    exact hx
  · intro hx
    exact ⟨hsub x hx, hx⟩

/-- C3 (amended): the displayed task-coverage numerator is the number of
distinct truthy `requirement_id` values among the tasks — a task whose
`requirement_id` matches no requirement still counts. Whenever requirement ids
are pairwise distinct and no task references a nonexistent requirement, this
agrees with the specification's link-based ratio (so Scenario D still reports
1.0), but orphan `requirement_id`s inflate the numerator. -/
theorem task_coverage_distinct_rid_refinement (brd : Brd) (tasks : List Task)
    (hnd : ((fetchTraceability brd tasks).requirements.map (fun r => r.id)).Nodup)
    (horph : ∀ task ∈ tasks, jsTruthy task.requirement_id = true →
        ∃ r ∈ (fetchTraceability brd tasks).requirements, some r.id = task.requirement_id) :
    taskCoverageRatio (fetchTraceability brd tasks).requirements tasks
      = specTaskCoverageRatio (fetchTraceability brd tasks) := by
  have hcount : specTaskCoverageCount (fetchTraceability brd tasks) = taskCoverageCount tasks := by
    rw [specTaskCoverageCount]
    have hpt : ∀ r ∈ (fetchTraceability brd tasks).requirements,
        specHasTaskLink (fetchTraceability brd tasks).links r
          = decide (r.id ∈ taskRequirementIds tasks) := by
      intro r hr
      rw [Bool.eq_iff_iff, decide_eq_true_iff]
      rw [specHasTaskLink_links brd tasks r]
      rw [specHasTaskLink_taskLinks (by rw [← fetchTraceability_requirements brd tasks]; exact hr)]
      exact mem_taskRequirementIds.symm
    rw [List.filter_congr hpt]
    have hswap : ((fetchTraceability brd tasks).requirements.filter
          (fun r => decide (r.id ∈ taskRequirementIds tasks))).length
        = (((fetchTraceability brd tasks).requirements.map (fun r => r.id)).filter
            (fun x => decide (x ∈ taskRequirementIds tasks))).length := by
      rw [List.filter_map, List.length_map]
      rfl
    rw [hswap]
    have hsub : ∀ x ∈ taskRequirementIds tasks,
        x ∈ (fetchTraceability brd tasks).requirements.map (fun r => r.id) := by
      intro x hx
      obtain ⟨task, htask, hrid, ht⟩ := mem_taskRequirementIds.1 hx
      obtain ⟨r, hrmem, hrid2⟩ := horph task htask ht
      rw [hrid] at hrid2
      have : r.id = x := by injection hrid2
      exact List.mem_map.2 ⟨r, hrmem, this⟩
    rw [length_filter_mem_eq_dedup_length _ _ hnd hsub]
    rfl
  rw [taskCoverageRatio, specTaskCoverageRatio, hcount]

/-- Witness for C3 at Scenario D's input: one requirement `FR-1` and one task
referencing it; both the displayed and the link-based ratio are defined and
equal. -/
theorem task_coverage_distinct_rid_refinement_witness :
    taskCoverageRatio (fetchTraceability fxBrdOneReq [fxTaskD]).requirements [fxTaskD]
      = specTaskCoverageRatio (fetchTraceability fxBrdOneReq [fxTaskD]) :=
  task_coverage_distinct_rid_refinement fxBrdOneReq [fxTaskD] (by decide) (by decide)

end Traceability
